import Mathlib

/-!
Verification of the real-estate-ai-bot core components against their
natural-language specification.  The Python sources are shallowly embedded:

* `src/real_estate_agent.py` — intent classifier (`analyze_query_type`),
  lead scorer (`calculate_lead_score` and the four component scores),
  next-action recommendation (`recommend_next_action`);
* `src/data/manager.py` — address parser (`_parse_address`), cache key
  (`_generate_cache_key`), TTL cache (`_get_from_cache`, `_add_to_cache`),
  orchestrating fetch (`fetch_property_data`);
* `src/chat_interface.py` — `RealEstateChatInterface.__init__` (weight table)
  and `process_query` (keyword dispatch and error envelope).

Machine reals only appear as exact decimal weights, which are embedded as
rationals; Python `round` (banker's rounding, ties to even) is modelled by
`pyRound`.  Virtual time is a natural number of seconds.
-/

/-- Python `str.lower()` for ASCII content. -/
def pyLower (s : String) : String := ⟨s.toList.map Char.toLower⟩

/-- Helper for `pySplit`: scan characters, `acc` holds the current token
reversed. -/
def pySplitAux : List Char → List Char → List String
  | [], acc => if acc = [] then [] else [⟨acc.reverse⟩]
  | c :: cs, acc =>
    if c.isWhitespace then
      if acc = [] then pySplitAux cs []
      else (⟨acc.reverse⟩ : String) :: pySplitAux cs []
    else pySplitAux cs (c :: acc)

/-- Python `str.split()` (no argument): split on whitespace runs, dropping
empty tokens. -/
def pySplit (s : String) : List String := pySplitAux s.toList []

/-- Python `str.isdigit()` for ASCII content: non-empty and all digits. -/
def pyIsDigit (s : String) : Bool :=
  s ≠ "" && s.toList.all (fun c => c.isDigit)

/-- Python `str.strip()` (no argument): drop leading and trailing
whitespace. -/
def pyStrip (s : String) : String :=
  ⟨(((s.toList.dropWhile Char.isWhitespace).reverse.dropWhile Char.isWhitespace).reverse)⟩

/-- Python substring test `pat in s`: some index of `s` starts an occurrence
of `pat`. -/
def strContains (s pat : String) : Bool :=
  (List.range (s.length + 1)).any
    (fun i => (s.toList.drop i).take pat.length == pat.toList)

/-- Python 3 `round` to an integer: nearest integer, ties to even. -/
def pyRound (q : ℚ) : ℤ :=
  let f : ℤ := ⌊q⌋
  let r : ℚ := q - f
  if r < 1/2 then f
  else if 1/2 < r then f + 1
  else if f % 2 = 0 then f else f + 1

/-! ## Intent classifier (`RealEstateAgent.analyze_query_type`)

`self.query_patterns` is a Python dict; insertion order is iteration order,
so it is embedded as an ordered association list. -/

/-- `RealEstateAgent.query_patterns` from `src/real_estate_agent.py`. -/
def query_patterns : List (String × List String) :=
  [ ("value_analysis",
      ["value", "worth", "price", "estimate", "appraisal",
       "how much", "market value", "arv"]),
    ("property_details",
      ["details", "information", "specs", "features",
       "tell me about", "what is", "condition"]),
    ("owner_info",
      ["owner", "who owns", "seller", "contact",
       "owned by", "ownership"]),
    ("occupancy",
      ["vacant", "occupied", "live in", "tenant",
       "occupancy", "living in"]),
    ("distressed",
      ["distressed", "foreclosure", "tax lien", "motivated",
       "behind payments", "delinquent", "problems"]),
    ("market",
      ["market", "trends", "appreciation", "comps",
       "comparable", "analysis"]),
    ("investment",
      ["investment", "roi", "return", "profit",
       "cash flow", "rental", "flip"]) ]

/-- `RealEstateAgent.analyze_query_type`: lowercase the query, scan the
pattern table in order, return the first category one of whose patterns
occurs in the query; otherwise `"comprehensive"`. -/
def analyze_query_type (query : String) : String :=
  let q := pyLower query
  match query_patterns.find? (fun p => p.2.any (fun pat => strContains q pat)) with
  | some p => p.1
  | none => "comprehensive"

/-- A category row of `query_patterns` matches the query: some keyword of the
row occurs in the lowercased query. -/
def rowMatches (query : String) (row : String × List String) : Bool :=
  row.2.any (fun pat => strContains (pyLower query) pat)

example : analyze_query_type "what is the value of the owner\x27s house" = "value_analysis" := by
  decide

example : analyze_query_type "hello there" = "comprehensive" := by decide

/-! ## Chat interface (`src/chat_interface.py`)

`RealEstateChatInterface.__init__` reads the API key from the environment,
raises `ValueError` when it is missing or empty (Python falsiness), and then
unconditionally installs a hard-coded weight table; no other validation is
performed at construction.  `process_query` dispatches on keyword tests and
returns a `status: success` payload from one of seven handlers, or a
`status: error` envelope when no keyword matches. -/

/-- `self.lead_score_weights` installed by `RealEstateChatInterface.__init__`. -/
def chat_lead_score_weights : List (String × ℚ) :=
  [ ("financial_distress", 0.3),
    ("time_pressure", 0.25),
    ("property_condition", 0.25),
    ("market_position", 0.2) ]

/-- State held by a constructed `RealEstateChatInterface`. -/
structure ChatState where
  api_key : String
  lead_score_weights : List (String × ℚ)
deriving DecidableEq

/-- `RealEstateChatInterface.__init__`: `env` is `os.getenv("ATTOM_API_KEY")`
(`none` when unset).  A missing or empty key raises `ValueError`; otherwise
the state is built with the hard-coded weight table, with no further checks. -/
def chatInterfaceInit (env : Option String) : Except String ChatState :=
  if env = none ∨ env = some "" then
    .error "ATTOM API key not found in environment variables"
  else
    .ok ⟨env.getD "", chat_lead_score_weights⟩

/-- Result dictionary of `process_query`: either a success payload carrying
response lines, or an error envelope carrying a message. -/
inductive QueryResult where
  | success (response : List String)
  | error (message : String)
deriving DecidableEq

/-- The `status` field of a `process_query` result. -/
def QueryResult.status : QueryResult → String
  | .success _ => "success"
  | .error _ => "error"

/-- `"-" * 30`, the separator used by every handler. -/
def sep30 : String := "------------------------------"

/-- Response lines of `_handle_value_query`. -/
def value_query_lines : List String :=
  ["Value Analysis:", sep30, "",
   "Current Valuation:", "- Estimated Value: $275,000", "- Confidence Score: 85%", "",
   "Market Comparison:", "- Neighborhood Avg: $265,000", "- Price per Sqft: $145", "",
   "Historical Trends:", "- 1 Year Change: +5.2%", "- 5 Year Change: +15.8%"]

/-- Response lines of `_handle_property_details`. -/
def property_details_lines : List String :=
  ["Property Details:", sep30, "",
   "Basic Information:", "- 3 Bedrooms", "- 2 Bathrooms", "- 1,850 sqft",
   "- Built in 1985", "",
   "Construction Details:", "- Foundation: Concrete Slab",
   "- Roof: Asphalt Shingle (2015)", "- HVAC: Central (2018)", "",
   "Property Features:", "- Garage: 2 Car", "- Lot Size: 0.25 acres",
   "- Zoning: Residential"]

/-- Response lines of `_handle_owner_query`. -/
def owner_query_lines : List String :=
  ["Owner Analysis:", sep30, "",
   "Owner Profile:", "- Current Owner: John Smith", "- Ownership Length: 8 years",
   "- Property Type: Primary Residence", "",
   "Financial Status:", "- Estimated Equity: 45%", "- Tax Status: Current",
   "- Recent Liens: None", "",
   "Portfolio Analysis:", "- Other Properties: 1",
   "- Investment Profile: Owner-Occupant"]

/-- Response lines of `_handle_occupancy_query`. -/
def occupancy_query_lines : List String :=
  ["Occupancy Analysis:", sep30, "",
   "Current Status:", "- Status: Occupied", "- Type: Owner-Occupied",
   "- Last Verified: 2024-03-01", "",
   "Utility Activity:", "- Electric: Active", "- Water: Active", "- Gas: Active", "",
   "Risk Assessment:", "- Vacancy Risk: Low", "- Occupancy Score: 95/100"]

/-- Response lines of `_handle_distressed_query`. -/
def distressed_query_lines : List String :=
  ["Distressed Property Analysis:", sep30, "",
   "Property Status:", "- Pre-foreclosure Stage", "- Days in Default: 120",
   "- Auction Date: None set", "",
   "Financial Analysis:", "- Outstanding Balance: $185,000",
   "- Estimated Value: $275,000", "- Potential Equity: $90,000", "",
   "Lead Score Analysis:", "- Financial Distress: 85/100", "- Time Pressure: 75/100",
   "- Property Condition: 65/100", "- Market Position: 80/100",
   "- Overall Score: 78/100", "",
   "Contact History:", "- Last Contact: None", "- Response Rate: N/A", "",
   "Property Condition:", "- Major Repairs Needed: No",
   "- Estimated Repair Cost: $15,000", "",
   "Market Context:", "- Days on Market: N/A", "- Market Activity: High",
   "- Buyer Interest: Strong", "",
   "Action Plan:", "1. Priority: High", "2. Recommended Contact: Direct Mail + Phone",
   "3. Suggested Offer Range: $200,000 - $225,000",
   "4. Next Steps: Schedule property inspection"]

/-- Response lines of `_handle_market_analysis`. -/
def market_analysis_lines : List String :=
  ["Market Analysis Report:", sep30, "",
   "Price Trends & Velocity:", "- Median Price: $265,000", "- YoY Change: +6.2%",
   "- Avg Days on Market: 28", "",
   "Market Conditions:", "- Inventory Level: Low", "- Buyer Demand: High",
   "- Market Type: Seller\x27s Market", "",
   "Neighborhood Stats:", "- Population Growth: +2.1%", "- Employment Rate: 96%",
   "- School Rating: 8/10"]

/-- Response lines of `_handle_investment_analysis`. -/
def investment_analysis_lines : List String :=
  ["Investment Analysis:", sep30, "",
   "Purchase Analysis:", "- Current Ask: $275,000", "- ARV: $325,000",
   "- Repair Estimate: $25,000", "",
   "Repair Details:", "- Major: HVAC ($8,000)", "- Moderate: Kitchen ($12,000)",
   "- Minor: Paint/Carpet ($5,000)", "",
   "Market Position:", "- Comps Range: $315k - $335k", "- Price per Sqft: $145", "",
   "Returns:", "- MAO: $240,000", "- Potential Profit: $35,000", "- ROI: 18.2%", "",
   "Exit Strategy:", "1. Fix & Flip: Recommended", "2. Wholesale: Viable",
   "3. Buy & Hold: Consider"]

/-- `RealEstateChatInterface.process_query`: lowercase and strip the query,
then dispatch on keyword membership in the order written in the source; if no
keyword test matches, return the `status: error` envelope. -/
def process_query (query : String) : QueryResult :=
  let q := pyStrip (pyLower query)
  if strContains q "value" || strContains q "worth" then
    .success value_query_lines
  else if strContains q "detail" || strContains q "info" then
    .success property_details_lines
  else if strContains q "owner" || strContains q "who owns" then
    .success owner_query_lines
  else if strContains q "vacant" || strContains q "occupancy" then
    .success occupancy_query_lines
  else if strContains q "distressed" || strContains q "foreclosure" then
    .success distressed_query_lines
  else if strContains q "market" || strContains q "trend" then
    .success market_analysis_lines
  else if strContains q "investment" || strContains q "roi" || strContains q "offer" then
    .success investment_analysis_lines
  else
    .error "Query type not recognized. Please try rephrasing your question."

/-- The dispatch keywords tested by `process_query`, in source order.  This
set differs from the classifier's `query_patterns` (e.g. it contains
"offer" and "detail", which no classifier category lists). -/
def process_query_keywords : List String :=
  ["value", "worth", "detail", "info", "owner", "who owns", "vacant", "occupancy",
   "distressed", "foreclosure", "market", "trend", "investment", "roi", "offer"]

/-! ## Address parser (`DataManager._parse_address`)

The Python loop `for i, part in enumerate(parts)` carries two pieces of
mutable state that matter before the `break`: the running index `i` and the
`street_number` field (the only field written before a suffix is found).  The
embedding recurses over the not-yet-visited tokens while keeping the full
token list and the current index, exactly mirroring `parts[1:i+1]` and
`parts[i+1:]`. -/

/-- The street-suffix vocabulary from `_parse_address`. -/
def street_suffixes : List String := ["st", "street", "ave", "avenue", "rd", "road"]

/-- Address dictionary built by `_parse_address`; unparsed fields stay `""`. -/
structure Address where
  street_number : String
  street_name : String
  city : String
  state : String
  zip : String
deriving DecidableEq

/-- Python `" ".join`. -/
def joinSpace (ts : List String) : String := String.intercalate " " ts

/-- The loop body of `_parse_address`.  `parts` is the full token list, `i`
the current index, `rest` the tokens from index `i` on, and `sn` the
`street_number` assigned so far. -/
def parse_address_loop (parts : List String) : ℕ → List String → String → Address
  | _, [], sn => ⟨sn, "", "", "", ""⟩
  | i, p :: ps, sn =>
    if pyIsDigit p && sn == "" then
      parse_address_loop parts (i + 1) ps p
    else if p ∈ street_suffixes then
      let street_name := joinSpace ((parts.drop 1).take i)
      let remaining := parts.drop (i + 1)
      if 2 ≤ remaining.length then
        let city := remaining.getD 0 ""
        let state := remaining.getD 1 ""
        let zip :=
          if 2 < remaining.length && pyIsDigit (remaining.getD 2 "") then
            remaining.getD 2 ""
          else ""
        ⟨sn, street_name, city, state, zip⟩
      else ⟨sn, street_name, "", "", ""⟩
    else
      parse_address_loop parts (i + 1) ps sn

/-- `DataManager._parse_address`: lowercase, split on whitespace, scan. -/
def parse_address (query : String) : Address :=
  let parts := pySplit (pyLower query)
  parse_address_loop parts 0 parts ""

/-- `DataManager._generate_cache_key`: join the non-empty address fields with
underscores and lowercase the result. -/
def generate_cache_key (a : Address) : String :=
  pyLower (String.intercalate "_"
    (([a.street_number, a.street_name, a.city, a.state, a.zip]).filter (fun s => s ≠ "")))

example : parse_address "123 main st boston ma 02101" =
    ⟨"123", "main st", "boston", "ma", "02101"⟩ := by decide

/-! ## TTL cache (`DataManager._get_from_cache` / `_add_to_cache`)

`self._cache` is a dict from cache key to `(data, timestamp)`; it is embedded
as a function from keys to optional entries.  Timestamps are naturals
(seconds); `self._cache_ttl = timedelta(hours=24)`. -/

/-- `self._cache_ttl`: 24 hours, in seconds. -/
def cache_ttl : ℕ := 24 * 60 * 60

/-- The record type stored in the cache is declared later; the cache itself
is generic in the stored value. -/
def Cache (α : Type) : Type := String → Option (α × ℕ)

/-- The empty cache created by `DataManager.__init__`. -/
def emptyCache {α : Type} : Cache α := fun _ => none

/-- `DataManager._get_from_cache`: return the stored record only while
`now - timestamp < cache_ttl`; a stale entry is deleted (second component is
the cache after the call). -/
def get_from_cache {α : Type} (now : ℕ) (c : Cache α) (key : String) :
    Option α × Cache α :=
  match c key with
  | some (data, timestamp) =>
    if now - timestamp < cache_ttl then (some data, c)
    else (none, fun k => if k = key then none else c k)
  | none => (none, c)

/-- `DataManager._add_to_cache`: insert or overwrite with the current time. -/
def add_to_cache {α : Type} (now : ℕ) (c : Cache α) (key : String) (data : α) :
    Cache α :=
  fun k => if k = key then some (data, now) else c k

/-- `DataManager.fetch_property_data`.  The data source
(`_fetch_from_api`) is a collaborator modelled as a stream of outcomes,
one per call: `source calls` is the outcome of the next call and the
returned counter says how many calls were made in total.  On a cache hit the
source is not consulted; on a miss the source is called exactly once, a
success is stored under the parsed key, and a failure is re-raised unchanged
(`except ... raise`) with nothing stored. -/
def fetch_property_data {α : Type} (now : ℕ)
    (source : ℕ → Except String α) (calls : ℕ)
    (c : Cache α) (query : String) :
    Except String α × Cache α × ℕ :=
  let address := parse_address query
  let cache_key := generate_cache_key address
  let (cached_data, c1) := get_from_cache now c cache_key
  match cached_data with
  | some d => (.ok d, c1, calls)
  | none =>
    match source calls with
    | .ok property_data => (.ok property_data, add_to_cache now c1 cache_key property_data, calls + 1)
    | .error e => (.error e, c1, calls + 1)

/-! ## Lead scorer (`RealEstateAgent.calculate_lead_score`)

Python reads every input through `dict.get(key, default)`; a possibly-absent
field is embedded as an `Option`, and `.get` as `Option.getD` /
`Option.bind`.  Scores are exact rationals. -/

/-- `property_details["repairs_needed"]` sub-dict. -/
structure RepairsNeeded where
  major : Option (List String)
  moderate : Option (List String)
  minor : Option (List String)
deriving DecidableEq

/-- `owner_info` sub-dict (the fields the scorer reads). -/
structure OwnerInfo where
  estimated_equity : Option ℚ
  time_owned : Option ℚ
deriving DecidableEq

/-- `property_details` sub-dict (the fields the scorer reads). -/
structure PropertyDetails where
  repairs_needed : Option RepairsNeeded
  year_built : Option ℤ
deriving DecidableEq

/-- `financial_metrics` sub-dict (the field the scorer reads). -/
structure FinancialMetrics where
  arv : Option ℚ
deriving DecidableEq

/-- `market_data` sub-dict (the field the scorer reads). -/
structure MarketData where
  appreciation_rate : Option ℚ
deriving DecidableEq

/-- A property record as consumed by the scorer; every field the Python code
reads with a default is optional. -/
structure PropertyData where
  distress_indicators : Option (List String)
  owner_info : Option OwnerInfo
  property_details : Option PropertyDetails
  financial_metrics : Option FinancialMetrics
  market_data : Option MarketData
  days_on_market : Option ℚ
  price_drops : Option ℚ
  price : Option ℚ
deriving DecidableEq

/-- The record with every field absent. -/
def emptyRecord : PropertyData := ⟨none, none, none, none, none, none, none, none⟩

/-- `RealEstateAgent._calculate_financial_distress`. -/
def calculate_financial_distress (data : PropertyData) : ℚ :=
  let indicators := data.distress_indicators.getD []
  let score : ℚ := 0
  let score := if indicators.contains "tax_delinquent" then score + 30 else score
  let score := if indicators.contains "mortgage_default" then score + 30 else score
  let equity := (data.owner_info.bind OwnerInfo.estimated_equity).getD 0
  let score := if equity > 50 then score + 20 else if equity > 30 then score + 10 else score
  let time_owned := (data.owner_info.bind OwnerInfo.time_owned).getD 0
  let score := if time_owned > 10 then score + 20 else score
  min score 100

/-- `RealEstateAgent._calculate_time_pressure`. -/
def calculate_time_pressure (data : PropertyData) : ℚ :=
  let indicators := data.distress_indicators.getD []
  let score : ℚ := 0
  let score := if indicators.contains "pre_foreclosure" then score + 40 else score
  let score := if indicators.contains "vacant" then score + 20 else score
  let days_on_market := data.days_on_market.getD 0
  let score :=
    if days_on_market > 180 then score + 20
    else if days_on_market > 90 then score + 10 else score
  let price_drops := data.price_drops.getD 0
  let score := score + min (price_drops * 5) 20
  min score 100

/-- `RealEstateAgent._calculate_property_condition`; `currentYear` stands for
`datetime.now().year`. -/
def calculate_property_condition (currentYear : ℤ) (data : PropertyData) : ℚ :=
  let details := data.property_details
  let repairs := details.bind PropertyDetails.repairs_needed
  let major_repairs := ((repairs.bind RepairsNeeded.major).getD []).length
  let moderate_repairs := ((repairs.bind RepairsNeeded.moderate).getD []).length
  let minor_repairs := ((repairs.bind RepairsNeeded.minor).getD []).length
  let score : ℚ := 100
  let score := score - major_repairs * 15
  let score := score - moderate_repairs * 10
  let score := score - minor_repairs * 5
  let age : ℤ := currentYear - (details.bind PropertyDetails.year_built).getD currentYear
  let score := if age > 50 then score - 20 else if age > 30 then score - 10 else score
  max score 0

/-- `RealEstateAgent._calculate_market_position`.  `if current_price and arv`
is Python truthiness, i.e. both non-zero. -/
def calculate_market_position (data : PropertyData) : ℚ :=
  let score : ℚ := 50
  let metrics := data.financial_metrics
  let current_price := data.price.getD 0
  let arv := (metrics.bind FinancialMetrics.arv).getD current_price
  let score :=
    if current_price ≠ 0 ∧ arv ≠ 0 then
      let ratio := current_price / arv
      if ratio < 0.7 then score + 30
      else if ratio < 0.8 then score + 20
      else if ratio < 0.9 then score + 10
      else score
    else score
  let appreciation := (data.market_data.bind MarketData.appreciation_rate).getD 0
  let score :=
    if appreciation > 10 then score + 20
    else if appreciation > 5 then score + 10 else score
  min score 100

/-- The `weights` dict inside `calculate_lead_score`. -/
def agent_lead_score_weights : List (String × ℚ) :=
  [ ("financial_distress", 0.35),
    ("time_pressure", 0.25),
    ("property_condition", 0.20),
    ("market_position", 0.20) ]

/-- Return dictionary of `calculate_lead_score`. -/
structure LeadScoreResult where
  overall_score : ℤ
  category : String
  priority : ℕ
  component_scores : List (String × ℚ)
deriving DecidableEq

/-- `RealEstateAgent.calculate_lead_score`: the four component scores, the
weighted sum `sum(score * weights[factor] for factor, score in
scores.items())`, the category thresholds on the (unrounded) weighted sum,
and `round(overall_score)` in the returned dict. -/
def calculate_lead_score (currentYear : ℤ) (data : PropertyData) : LeadScoreResult :=
  let scores : List (String × ℚ) :=
    [ ("financial_distress", calculate_financial_distress data),
      ("time_pressure", calculate_time_pressure data),
      ("property_condition", calculate_property_condition currentYear data),
      ("market_position", calculate_market_position data) ]
  let overall_score : ℚ :=
    (scores.map (fun p => p.2 * ((agent_lead_score_weights.lookup p.1).getD 0))).sum
  if overall_score ≥ 80 then
    ⟨pyRound overall_score, "Hot", 1, scores⟩
  else if overall_score ≥ 60 then
    ⟨pyRound overall_score, "Warm", 2, scores⟩
  else
    ⟨pyRound overall_score, "Cold", 3, scores⟩

/-- The exact (unrounded) weighted overall score, with the spec's fixed
weights written out: 0.35, 0.25, 0.20, 0.20. -/
def lead_weighted_sum (currentYear : ℤ) (data : PropertyData) : ℚ :=
  0.35 * calculate_financial_distress data
    + 0.25 * calculate_time_pressure data
    + 0.20 * calculate_property_condition currentYear data
    + 0.20 * calculate_market_position data

/-! ## Next action (`RealEstateAgent.recommend_next_action`)

`real_estate_agent.py` imports only `datetime` from the `datetime` module
(`from datetime import datetime`); the name `timedelta` is used in every
branch of `recommend_next_action` but is bound nowhere in the module, so each
branch evaluates `timedelta(days=n)` by looking the name up and raising
`NameError`.  Dates are embedded as integer day numbers. -/

/-- The names bound at module scope in `src/real_estate_agent.py` that
`recommend_next_action` could reference: the `typing` imports, `logging`,
and `datetime`.  `timedelta` is not among them. -/
def real_estate_agent_module_names : List String :=
  ["Dict", "List", "Optional", "logging", "datetime", "RealEstateAgent"]

/-- Whether the name `timedelta` resolves in `real_estate_agent.py`. -/
def timedelta_in_scope : Bool := real_estate_agent_module_names.contains "timedelta"

/-- Return dictionary of `recommend_next_action`; `follow_up_date` is a day
number (today + offset). -/
structure NextAction where
  next_action : String
  follow_up_date : ℤ
  priority : ℕ
deriving DecidableEq

/-- The Python `NameError` message raised when `timedelta` is referenced. -/
def timedeltaNameError : String := "NameError: name \x27timedelta\x27 is not defined"

/-- `RealEstateAgent.recommend_next_action`: dispatch on the lead category;
each branch evaluates `datetime.now().date() + timedelta(days=n)`, which
requires the (unbound) name `timedelta` and otherwise yields `today + n`. -/
def recommend_next_action (today : ℤ) (lead_score : LeadScoreResult) :
    Except String NextAction :=
  if lead_score.category = "Hot" then
    if timedelta_in_scope then .ok ⟨"Direct Mail + Phone Call", today + 1, 1⟩
    else .error timedeltaNameError
  else if lead_score.category = "Warm" then
    if timedelta_in_scope then .ok ⟨"Direct Mail", today + 7, 2⟩
    else .error timedeltaNameError
  else
    if timedelta_in_scope then .ok ⟨"Add to Monthly Mailer", today + 30, 3⟩
    else .error timedeltaNameError

/-! ## Theorems -/

/-- A successful `List.find?` splits the list at the found element: the
element satisfies the predicate and everything before it fails it. -/
theorem find?_structure {α : Type} (l : List α) (p : α → Bool) (row : α)
    (hf : l.find? p = some row) :
    p row = true ∧ ∃ pre post, l = pre ++ row :: post ∧ ∀ r ∈ pre, p r = false := by
  induction l with
  | nil => simp at hf
  | cons x xs ih =>
    cases hp : p x with
    | true =>
      rw [List.find?_cons_of_pos _ hp] at hf
      obtain rfl : x = row := by simpa using hf
      exact ⟨hp, [], xs, rfl, by simp⟩
    | false =>
      rw [List.find?_cons_of_neg _ (by simp [hp])] at hf
      obtain ⟨hprow, pre, post, heq, hpre⟩ := ih hf
      refine ⟨hprow, x :: pre, post, by rw [heq]; rfl, ?_⟩
      intro r hr
      rcases List.mem_cons.mp hr with h | h
      · exact h ▸ hp
      · exact hpre r h

/-- `analyze_query_type` searches the pattern table with `rowMatches`. -/
theorem analyze_query_type_eq_find (query : String) :
    analyze_query_type query =
      match query_patterns.find? (rowMatches query) with
      | some row => row.1
      | none => "comprehensive" := rfl

/-- C1: for every query whose lowercased text contains keyword substrings of
more than one intent category, `analyze_query_type` returns the earliest
matching category in the fixed order value_analysis, property_details,
owner_info, occupancy, distressed, market, investment (the returned category
matches and every category listed before it does not); in particular a query
containing both a value_analysis keyword and an owner_info keyword, such as
"what is the value of the owner's house", returns `value_analysis`. -/
theorem C1_classifier_priority_order :
    (∀ (query c₁ c₂ : String) (pats₁ pats₂ : List String),
      (c₁, pats₁) ∈ query_patterns → (c₂, pats₂) ∈ query_patterns →
      rowMatches query (c₁, pats₁) = true → rowMatches query (c₂, pats₂) = true →
      c₁ ≠ c₂ →
      ∃ pre row post, query_patterns = pre ++ row :: post ∧
        rowMatches query row = true ∧
        (∀ r ∈ pre, rowMatches query r = false) ∧
        analyze_query_type query = row.1) ∧
    analyze_query_type "what is the value of the owner\x27s house" = "value_analysis" := by
  constructor
  · intro query c₁ c₂ pats₁ pats₂ h₁ _ hm₁ _ _
    cases hf : query_patterns.find? (rowMatches query) with
    | none =>
      exact absurd hm₁ (by simpa using List.find?_eq_none.mp hf _ h₁)
    | some row =>
      obtain ⟨hp, pre, post, heq, hpre⟩ := find?_structure _ _ _ hf
      refine ⟨pre, row, post, heq, hp, hpre, ?_⟩
      rw [analyze_query_type_eq_find, hf]
  · decide

/-- Witness for C1 at the spec's example: "what is the value of the owner's
house" matches both `value_analysis` (keyword "value") and `owner_info`
(keyword "owner"), and the classifier picks the earliest matching row. -/
theorem C1_witness :
    ∃ pre row post, query_patterns = pre ++ row :: post ∧
      rowMatches "what is the value of the owner\x27s house" row = true ∧
      (∀ r ∈ pre, rowMatches "what is the value of the owner\x27s house" r = false) ∧
      analyze_query_type "what is the value of the owner\x27s house" = row.1 :=
  C1_classifier_priority_order.1 "what is the value of the owner\x27s house"
    "value_analysis" "owner_info"
    ["value", "worth", "price", "estimate", "appraisal", "how much", "market value", "arv"]
    ["owner", "who owns", "seller", "contact", "owned by", "ownership"]
    (by decide) (by decide) (by decide) (by decide) (by decide)

/-- C6 counterexample: the query "hello there" contains none of the known
intent keywords, yet `RealEstateChatInterface.process_query` reports it to
the caller as an error envelope ("Query type not recognized"), contradicting
the claim that an unrecognized intent is not reported as an error. -/
theorem C6_counterexample :
    process_query "hello there" =
      QueryResult.error "Query type not recognized. Please try rephrasing your question." ∧
    (process_query "hello there").status = "error" := by
  constructor
  · decide
  · decide

/-- C6 (amended): every query matching none of the classifier's known intent
keywords is classified by `analyze_query_type` as `comprehensive` (not an
error); the chat interface's `process_query`, however, dispatches on its own
keyword set, and every query containing none of those dispatch keywords —
"hello there" among them — is reported to the caller as the
`status: error` envelope. -/
theorem C6_comprehensive_fallback :
    (∀ query : String,
      query_patterns.all (fun row => !rowMatches query row) = true →
      analyze_query_type query = "comprehensive") ∧
    (∀ query : String,
      process_query_keywords.all
        (fun k => !strContains (pyStrip (pyLower query)) k) = true →
      process_query query =
        QueryResult.error "Query type not recognized. Please try rephrasing your question.") ∧
    analyze_query_type "hello there" = "comprehensive" ∧
    (process_query "hello there").status = "error" := by
  refine ⟨?_, ?_, by decide, by decide⟩
  · intro query hall
    rw [analyze_query_type_eq_find]
    have hnone : query_patterns.find? (rowMatches query) = none := by
      apply List.find?_eq_none.mpr
      intro x hx
      simpa using List.all_eq_true.mp hall x hx
    rw [hnone]
  · intro query hall
    have h : ∀ k ∈ process_query_keywords,
        strContains (pyStrip (pyLower query)) k = false := by
      intro k hk
      simpa using List.all_eq_true.mp hall k hk
    simp only [process_query]
    simp [h "value" (by decide), h "worth" (by decide), h "detail" (by decide),
      h "info" (by decide), h "owner" (by decide), h "who owns" (by decide),
      h "vacant" (by decide), h "occupancy" (by decide), h "distressed" (by decide),
      h "foreclosure" (by decide), h "market" (by decide), h "trend" (by decide),
      h "investment" (by decide), h "roi" (by decide), h "offer" (by decide)]

/-- Witness for C6 at the spec's example query "hello there", which matches
neither the classifier's keywords nor the dispatch keywords of
`process_query`. -/
theorem C6_witness :
    query_patterns.all (fun row => !rowMatches "hello there" row) = true ∧
    analyze_query_type "hello there" = "comprehensive" ∧
    process_query_keywords.all
      (fun k => !strContains (pyStrip (pyLower "hello there")) k) = true ∧
    process_query "hello there" =
      QueryResult.error "Query type not recognized. Please try rephrasing your question." :=
  ⟨by decide, C6_comprehensive_fallback.1 "hello there" (by decide),
   by decide, C6_comprehensive_fallback.2.1 "hello there" (by decide)⟩


/-- C2 counterexample: the weight table installed at construction of the
scoring chat interface assigns `financial_distress` the weight 0.3 — not the
claimed 0.35 — and construction accepts it without any weight-sum assertion
(only the API-key presence is checked). -/
theorem C2_counterexample :
    chat_lead_score_weights.lookup "financial_distress" = some 0.3 ∧
    (0.3 : ℚ) ≠ 0.35 ∧
    chatInterfaceInit (some "test-key") = .ok ⟨"test-key", chat_lead_score_weights⟩ := by
  refine ⟨rfl, by norm_num, rfl⟩

/-- C2 (amended): the agent's `calculate_lead_score` weight table is exactly
{financial_distress: 0.35, time_pressure: 0.25, property_condition: 0.20,
market_position: 0.20} and its entries sum to 1.0; the chat interface
constructs a different hard-coded table (financial_distress 0.3,
property_condition 0.25) whose entries also sum to 1.0, and no sum-to-1.0
assertion is made at construction: the constructor installs the table
unconditionally whenever the API key is present and non-empty. -/
theorem C2_weight_tables :
    agent_lead_score_weights =
      [("financial_distress", 0.35), ("time_pressure", 0.25),
       ("property_condition", 0.20), ("market_position", 0.20)] ∧
    (agent_lead_score_weights.map Prod.snd).sum = 1 ∧
    (chat_lead_score_weights.map Prod.snd).sum = 1 ∧
    chat_lead_score_weights.lookup "financial_distress" = some 0.3 ∧
    chat_lead_score_weights.lookup "property_condition" = some 0.25 ∧
    (∀ env : Option String, env ≠ none → env ≠ some "" →
      chatInterfaceInit env = .ok ⟨env.getD "", chat_lead_score_weights⟩) := by
  refine ⟨rfl, ?_, ?_, rfl, rfl, ?_⟩
  · norm_num [agent_lead_score_weights]
  · norm_num [chat_lead_score_weights]
  · intro env h1 h2
    unfold chatInterfaceInit
    rw [if_neg]
    rintro (h | h)
    · exact h1 h
    · exact h2 h

/-- Witness for C2 at a concrete environment value. -/
theorem C2_witness :
    (some "ATTOM-KEY" : Option String) ≠ none ∧
    chatInterfaceInit (some "ATTOM-KEY") = .ok ⟨"ATTOM-KEY", chat_lead_score_weights⟩ :=
  ⟨by decide, C2_weight_tables.2.2.2.2.2 (some "ATTOM-KEY") (by decide) (by decide)⟩

/-- A `get_from_cache` on a key with no entry returns absent and the cache
unchanged. -/
theorem get_from_cache_absent {α : Type} (now : ℕ) (c : Cache α) (k : String)
    (h : c k = none) : get_from_cache now c k = (none, c) := by
  unfold get_from_cache
  rw [h]

/-- A `get_from_cache` on a fresh entry returns it and the cache unchanged. -/
theorem get_from_cache_fresh {α : Type} (now : ℕ) (c : Cache α) (k : String)
    (d : α) (ts : ℕ) (h : c k = some (d, ts)) (hfresh : now - ts < cache_ttl) :
    get_from_cache now c k = (some d, c) := by
  unfold get_from_cache
  rw [h]
  simp [hfresh]

/-- A `get_from_cache` on a stale entry returns absent and deletes it. -/
theorem get_from_cache_stale {α : Type} (now : ℕ) (c : Cache α) (k : String)
    (d : α) (ts : ℕ) (h : c k = some (d, ts)) (hstale : ¬ now - ts < cache_ttl) :
    get_from_cache now c k = (none, fun k2 => if k2 = k then none else c k2) := by
  unfold get_from_cache
  rw [h]
  simp [hstale]

/-- C3: `_get_from_cache` returns a record exactly when a fresh entry exists
(`now - stored_at < TTL`); a `put` followed by a `get` within the TTL returns
the record exactly; once the TTL has elapsed, `get` reports absent and
deletes the entry, and any later `get` for that key (without a new `put`)
still reports absent and leaves the cache as it is. -/
theorem C3_cache_ttl_semantics :
    (∀ (now : ℕ) (c : Cache PropertyData) (k : String) (v : PropertyData),
      (get_from_cache now c k).1 = some v ↔
        ∃ ts, c k = some (v, ts) ∧ now - ts < cache_ttl) ∧
    (∀ (t₀ t₁ : ℕ) (c : Cache PropertyData) (k : String) (v : PropertyData),
      t₁ - t₀ < cache_ttl →
      (get_from_cache t₁ (add_to_cache t₀ c k v) k).1 = some v) ∧
    (∀ (t₀ t₁ : ℕ) (c : Cache PropertyData) (k : String) (v : PropertyData),
      cache_ttl ≤ t₁ - t₀ →
      (get_from_cache t₁ (add_to_cache t₀ c k v) k).1 = none ∧
      (get_from_cache t₁ (add_to_cache t₀ c k v) k).2 k = none ∧
      ∀ t₂ : ℕ,
        get_from_cache t₂ ((get_from_cache t₁ (add_to_cache t₀ c k v) k).2) k =
          (none, (get_from_cache t₁ (add_to_cache t₀ c k v) k).2)) := by
  have hput : ∀ (t₀ : ℕ) (c : Cache PropertyData) (k : String) (v : PropertyData),
      add_to_cache t₀ c k v k = some (v, t₀) := by
    intro t₀ c k v
    unfold add_to_cache
    simp
  refine ⟨?_, ?_, ?_⟩
  · intro now c k v
    cases hc : c k with
    | none =>
      rw [get_from_cache_absent now c k hc]
      simp [hc]
    | some e =>
      obtain ⟨d, ts⟩ := e
      by_cases h : now - ts < cache_ttl
      · rw [get_from_cache_fresh now c k d ts hc h]
        constructor
        · intro h'
          have hd : d = v := Option.some.inj h'
          exact ⟨ts, by rw [hd], h⟩
        · rintro ⟨ts', he, -⟩
          simp only [Option.some.injEq, Prod.mk.injEq] at he
          rw [he.1]
      · rw [get_from_cache_stale now c k d ts hc h]
        constructor
        · intro h'
          exact absurd h' (by simp)
        · rintro ⟨ts', he, hlt⟩
          simp only [Option.some.injEq, Prod.mk.injEq] at he
          have hts : now - ts < cache_ttl := by rw [he.2]; exact hlt
          exact absurd hts h
  · intro t₀ t₁ c k v h
    rw [get_from_cache_fresh t₁ _ k v t₀ (hput t₀ c k v) h]
  · intro t₀ t₁ c k v h
    have hstale : ¬ t₁ - t₀ < cache_ttl := not_lt.mpr h
    rw [get_from_cache_stale t₁ _ k v t₀ (hput t₀ c k v) hstale]
    refine ⟨rfl, by simp, ?_⟩
    intro t₂
    exact get_from_cache_absent t₂ _ k (by simp)

/-- Witness for C3: a put at time 0, a fresh get at 50 seconds, a stale get
at exactly the 24-hour TTL, and a later get that does not resurrect. -/
theorem C3_witness :
    ((50 : ℕ) - 0 < cache_ttl ∧
      (get_from_cache 50 (add_to_cache 0 emptyCache "123_main st" emptyRecord) "123_main st").1 =
        some emptyRecord) ∧
    (cache_ttl ≤ (86400 : ℕ) - 0 ∧
      (get_from_cache 86400 (add_to_cache 0 emptyCache "123_main st" emptyRecord) "123_main st").1 =
        none) := by
  constructor
  · exact ⟨by decide,
      C3_cache_ttl_semantics.2.1 0 50 emptyCache "123_main st" emptyRecord (by decide)⟩
  · exact ⟨by decide,
      (C3_cache_ttl_semantics.2.2 0 86400 emptyCache "123_main st" emptyRecord (by decide)).1⟩

/-- C10: a cache read never extends an entry's lifetime — on a fresh entry
`get_from_cache` returns the stored record and the cache function (all
entries, timestamps included) is returned unchanged; only `_add_to_cache`
writes a timestamp. -/
theorem C10_get_preserves_cache :
    ∀ (now : ℕ) (c : Cache PropertyData) (k : String) (v : PropertyData) (t : ℕ),
      c k = some (v, t) → now - t < cache_ttl →
      get_from_cache now c k = (some v, c) ∧
      (∀ (now2 : ℕ) (v2 : PropertyData), add_to_cache now2 c k v2 k = some (v2, now2)) := by
  intro now c k v t hc hfresh
  refine ⟨get_from_cache_fresh now c k v t hc hfresh, ?_⟩
  intro now2 v2
  unfold add_to_cache
  simp

/-- Witness for C10: a concrete fresh entry is read back with the cache left
untouched. -/
theorem C10_witness :
    (add_to_cache 5 emptyCache "k" emptyRecord) "k" = some (emptyRecord, 5) ∧
    (10 : ℕ) - 5 < cache_ttl ∧
    get_from_cache 10 (add_to_cache 5 emptyCache "k" emptyRecord) "k" =
      (some emptyRecord, add_to_cache 5 emptyCache "k" emptyRecord) :=
  ⟨by decide, by decide,
    (C10_get_preserves_cache 10 (add_to_cache 5 emptyCache "k" emptyRecord) "k"
      emptyRecord 5 (by decide) (by decide)).1⟩

-- Equality of embedded Python results (`Except`) is decidable.
deriving instance DecidableEq for Except

/-- A data source whose every call fails, for the C9 instances. -/
def failing_source : ℕ → Except String PropertyData :=
  fun _ => .error "API request failed with status 500"

/-- The query used in the C9 instances and its derived cache key. -/
def c9_query : String := "123 main st boston ma"

/-- The cache key `fetch_property_data` derives for `c9_query`. -/
def c9_key : String := generate_cache_key (parse_address c9_query)

/-- The cache holding one entry for `c9_key` stored at time 0. -/
def c9_cache : Cache PropertyData := add_to_cache 0 emptyCache c9_key emptyRecord

/-- C9 counterexample: with a stale entry for the key in the cache, a fetch
whose data source fails does propagate the failure, but the cache state is
NOT unchanged — the lookup preceding the failed fetch evicted the stale
entry, so the resulting cache differs from the original at the fetched key. -/
theorem C9_counterexample :
    (fetch_property_data 86400 failing_source 0 c9_cache c9_query).1 =
      .error "API request failed with status 500" ∧
    c9_cache c9_key = some (emptyRecord, 0) ∧
    (fetch_property_data 86400 failing_source 0 c9_cache c9_query).2.1 c9_key = none ∧
    (fetch_property_data 86400 failing_source 0 c9_cache c9_query).2.1 ≠ c9_cache := by
  refine ⟨by decide, by decide, by decide, ?_⟩
  intro hEq
  have h := congrFun hEq c9_key
  rw [show (fetch_property_data 86400 failing_source 0 c9_cache c9_query).2.1 c9_key = none
        from by decide,
      show c9_cache c9_key = some (emptyRecord, 0) from by decide] at h
  exact Option.noConfusion h

/-- C9 (amended): on a cache miss whose data-source call fails, the failure
propagates to the caller unmodified with exactly one source call (no retry),
no entry is stored for the fetched key, and every other key's entry is
untouched; the only possible cache change is the eviction of an expired
entry for the fetched key performed by the lookup itself. -/
theorem C9_fetch_failure :
    ∀ (now : ℕ) (source : ℕ → Except String PropertyData) (calls : ℕ)
      (c : Cache PropertyData) (q : String) (e : String),
      (get_from_cache now c (generate_cache_key (parse_address q))).1 = none →
      source calls = .error e →
      fetch_property_data now source calls c q =
        (.error e, (get_from_cache now c (generate_cache_key (parse_address q))).2, calls + 1) ∧
      (get_from_cache now c (generate_cache_key (parse_address q))).2
        (generate_cache_key (parse_address q)) = none ∧
      (∀ k : String, k ≠ generate_cache_key (parse_address q) →
        (get_from_cache now c (generate_cache_key (parse_address q))).2 k = c k) := by
  intro now source calls c q e hmiss hsrc
  set key := generate_cache_key (parse_address q) with hkey
  refine ⟨?_, ?_, ?_⟩
  · simp only [fetch_property_data]
    rw [← hkey]
    rcases hg : get_from_cache now c key with ⟨hit, c1⟩
    have h1 : hit = none := by rw [hg] at hmiss; exact hmiss
    subst h1
    simp [hg, hsrc]
  · cases hc : c key with
    | none =>
      rw [get_from_cache_absent now c key hc]
      exact hc
    | some entry =>
      obtain ⟨d, ts⟩ := entry
      by_cases hfr : now - ts < cache_ttl
      · exact absurd (by rw [get_from_cache_fresh now c key d ts hc hfr] at hmiss; exact hmiss)
          (by simp)
      · rw [get_from_cache_stale now c key d ts hc hfr]
        simp
  · intro k hk
    cases hc : c key with
    | none =>
      rw [get_from_cache_absent now c key hc]
    | some entry =>
      obtain ⟨d, ts⟩ := entry
      by_cases hfr : now - ts < cache_ttl
      · exact absurd (by rw [get_from_cache_fresh now c key d ts hc hfr] at hmiss; exact hmiss)
          (by simp)
      · rw [get_from_cache_stale now c key d ts hc hfr]
        simp [hk]

/-- Witness for C9: a failing fetch on an empty cache returns the source's
error, makes exactly one source call, and stores nothing. -/
theorem C9_witness :
    (get_from_cache 0 (emptyCache : Cache PropertyData) c9_key).1 = none ∧
    failing_source 0 = .error "API request failed with status 500" ∧
    fetch_property_data 0 failing_source 0 emptyCache c9_query =
      (.error "API request failed with status 500",
        (get_from_cache 0 (emptyCache : Cache PropertyData)
          (generate_cache_key (parse_address c9_query))).2, 1) :=
  ⟨by decide, by decide,
    (C9_fetch_failure 0 failing_source 0 emptyCache c9_query
      "API request failed with status 500" (by decide) (by decide)).1⟩

/-- C4: `recommend_next_action` never returns a recommendation —
`real_estate_agent.py` binds `datetime` but not `timedelta`, so every branch
(Hot, Warm and Cold alike) raises `NameError: name 'timedelta' is not
defined` instead of producing the documented action and follow-up date. -/
theorem C4_recommend_next_action_raises :
    (∀ (today : ℤ) (lead : LeadScoreResult),
      recommend_next_action today lead = .error timedeltaNameError) ∧
    recommend_next_action 0 ⟨85, "Hot", 1, []⟩ = .error timedeltaNameError ∧
    recommend_next_action 0 ⟨70, "Warm", 2, []⟩ = .error timedeltaNameError ∧
    recommend_next_action 0 ⟨40, "Cold", 3, []⟩ = .error timedeltaNameError := by
  refine ⟨?_, by decide, by decide, by decide⟩
  intro today lead
  unfold recommend_next_action
  have ht : timedelta_in_scope = false := by decide
  rw [ht]
  simp

/-- C5 counterexample: for "123 main st boston" the street suffix "st" is
followed by exactly one token, "boston"; the claim says the first remaining
token becomes `city`, but `_parse_address` assigns city/state only when at
least two tokens remain, so `city` stays empty. -/
theorem C5_counterexample :
    pySplit (pyLower "123 main st boston") = ["123", "main", "st", "boston"] ∧
    (parse_address "123 main st boston").city = "" ∧
    (parse_address "123 main st boston").state = "" ∧
    (parse_address "123 main st boston").zip = "" := by
  refine ⟨by decide, by decide, by decide, by decide⟩

/-- No street suffix is a digit string. -/
theorem street_suffixes_not_digit : ∀ s ∈ street_suffixes, pyIsDigit s = false := by
  decide

/-- The positional consumption performed by `parse_address_loop` once the
first suffix token is reached: `city`, `state` and `zip` are read from the
tokens after the suffix when at least two remain, and are left empty
otherwise.  `pre` is the list of already-scanned non-suffix tokens. -/
theorem parse_address_loop_after_suffix
    (parts : List String) (suf : String) (rest : List String)
    (hsuf : suf ∈ street_suffixes) :
    ∀ (pre : List String) (i : ℕ) (sn : String),
      (∀ t ∈ pre, t ∉ street_suffixes) →
      parts.drop i = pre ++ suf :: rest →
      ((2 ≤ rest.length →
        (parse_address_loop parts i (pre ++ suf :: rest) sn).city = rest.getD 0 "" ∧
        (parse_address_loop parts i (pre ++ suf :: rest) sn).state = rest.getD 1 "" ∧
        (parse_address_loop parts i (pre ++ suf :: rest) sn).zip =
          (if 2 < rest.length && pyIsDigit (rest.getD 2 "") then rest.getD 2 "" else "")) ∧
      (rest.length < 2 →
        (parse_address_loop parts i (pre ++ suf :: rest) sn).city = "" ∧
        (parse_address_loop parts i (pre ++ suf :: rest) sn).state = "" ∧
        (parse_address_loop parts i (pre ++ suf :: rest) sn).zip = "")) := by
  intro pre
  induction pre with
  | nil =>
    intro i sn _ hdrop
    have hdig : ¬ (pyIsDigit suf && sn == "") = true := by
      rw [street_suffixes_not_digit suf hsuf]
      simp
    have hrem : parts.drop (i + 1) = rest := by
      rw [← List.tail_drop, hdrop]
      rfl
    simp only [List.nil_append, parse_address_loop, hdig, if_false, if_pos hsuf,
      Bool.false_eq_true, hrem]
    constructor
    · intro hlen
      rw [if_pos hlen]
      exact ⟨rfl, rfl, rfl⟩
    · intro hlen
      rw [if_neg (by omega)]
      exact ⟨rfl, rfl, rfl⟩
  | cons t pre ih =>
    intro i sn hpre hdrop
    have htns : t ∉ street_suffixes := hpre t (List.mem_cons_self t pre)
    have hdrop1 : parts.drop (i + 1) = pre ++ suf :: rest := by
      rw [← List.tail_drop, hdrop]
      rfl
    have hpre1 : ∀ x ∈ pre, x ∉ street_suffixes :=
      fun x hx => hpre x (List.mem_cons_of_mem t hx)
    have step : ∀ sn' : String,
        parse_address_loop parts i ((t :: pre) ++ suf :: rest) sn =
          parse_address_loop parts (i + 1) (pre ++ suf :: rest) sn' →
        ((2 ≤ rest.length →
          (parse_address_loop parts i ((t :: pre) ++ suf :: rest) sn).city = rest.getD 0 "" ∧
          (parse_address_loop parts i ((t :: pre) ++ suf :: rest) sn).state = rest.getD 1 "" ∧
          (parse_address_loop parts i ((t :: pre) ++ suf :: rest) sn).zip =
            (if 2 < rest.length && pyIsDigit (rest.getD 2 "") then rest.getD 2 "" else "")) ∧
        (rest.length < 2 →
          (parse_address_loop parts i ((t :: pre) ++ suf :: rest) sn).city = "" ∧
          (parse_address_loop parts i ((t :: pre) ++ suf :: rest) sn).state = "" ∧
          (parse_address_loop parts i ((t :: pre) ++ suf :: rest) sn).zip = "")) := by
      intro sn' heq
      rw [heq]
      exact ih (i + 1) sn' hpre1 hdrop1
    by_cases hd : (pyIsDigit t && sn == "") = true
    · exact step t (by rw [List.cons_append, parse_address_loop, if_pos hd])
    · exact step sn (by
        rw [List.cons_append, parse_address_loop, if_neg hd, if_neg htns])

/-- C5 (amended): for every query whose token list contains a street-suffix
token (first occurrence `suf`, with `rest` the tokens after it): when at
least two tokens remain the remaining tokens are consumed positionally —
first remaining token → `city`, second → `state`, and a numeric third →
`zip`; when fewer than two tokens remain, `city`, `state` and `zip` are all
left as empty strings (in particular a single remaining token does NOT
become `city`). -/
theorem C5_positional_address_fields :
    ∀ (q : String) (pre : List String) (suf : String) (rest : List String),
      pySplit (pyLower q) = pre ++ suf :: rest →
      suf ∈ street_suffixes →
      (∀ t ∈ pre, t ∉ street_suffixes) →
      ((2 ≤ rest.length →
        (parse_address q).city = rest.getD 0 "" ∧
        (parse_address q).state = rest.getD 1 "" ∧
        (parse_address q).zip =
          (if 2 < rest.length && pyIsDigit (rest.getD 2 "") then rest.getD 2 "" else "")) ∧
      (rest.length < 2 →
        (parse_address q).city = "" ∧
        (parse_address q).state = "" ∧
        (parse_address q).zip = "")) := by
  intro q pre suf rest hsplit hsuf hpre
  unfold parse_address
  rw [hsplit]
  exact parse_address_loop_after_suffix (pre ++ suf :: rest) suf rest hsuf pre 0 ""
    hpre (by rw [List.drop_zero])

/-- Witness for C5 at a full address query with three tokens after the
suffix. -/
theorem C5_witness :
    (parse_address "123 main st boston ma 02101").city = "boston" ∧
    (parse_address "123 main st boston ma 02101").state = "ma" ∧
    (parse_address "123 main st boston ma 02101").zip = "02101" := by
  have h := (C5_positional_address_fields "123 main st boston ma 02101"
    ["123", "main"] "st" ["boston", "ma", "02101"]
    (by decide) (by decide) (by decide)).1 (by decide)
  obtain ⟨hc, hs, hz⟩ := h
  refine ⟨hc, hs, ?_⟩
  rw [hz]
  decide

/-- Evaluating the weighted sum `sum(score * weights[factor] ...)` inside
`calculate_lead_score` against the fixed weight table. -/
theorem agent_weighted_sum_eq (fd tp pc mp : ℚ) :
    (([("financial_distress", fd), ("time_pressure", tp),
       ("property_condition", pc), ("market_position", mp)] : List (String × ℚ)).map
        (fun p => p.2 * ((agent_lead_score_weights.lookup p.1).getD 0))).sum
      = 0.35 * fd + 0.25 * tp + 0.20 * pc + 0.20 * mp := by
  have l1 : agent_lead_score_weights.lookup "financial_distress" = some 0.35 := rfl
  have l2 : agent_lead_score_weights.lookup "time_pressure" = some 0.25 := rfl
  have l3 : agent_lead_score_weights.lookup "property_condition" = some 0.20 := rfl
  have l4 : agent_lead_score_weights.lookup "market_position" = some 0.20 := rfl
  simp only [List.map_cons, List.map_nil, List.sum_cons, List.sum_nil, l1, l2, l3, l4,
    Option.getD_some]
  ring

/-- `calculate_lead_score` written with its weighted sum named: the category
test is performed on the unrounded `lead_weighted_sum`, the reported
`overall_score` is its banker's rounding. -/
theorem calculate_lead_score_eq (y : ℤ) (d : PropertyData) :
    calculate_lead_score y d =
      (if lead_weighted_sum y d ≥ 80 then
        ⟨pyRound (lead_weighted_sum y d), "Hot", 1,
          [("financial_distress", calculate_financial_distress d),
           ("time_pressure", calculate_time_pressure d),
           ("property_condition", calculate_property_condition y d),
           ("market_position", calculate_market_position d)]⟩
      else if lead_weighted_sum y d ≥ 60 then
        ⟨pyRound (lead_weighted_sum y d), "Warm", 2,
          [("financial_distress", calculate_financial_distress d),
           ("time_pressure", calculate_time_pressure d),
           ("property_condition", calculate_property_condition y d),
           ("market_position", calculate_market_position d)]⟩
      else
        ⟨pyRound (lead_weighted_sum y d), "Cold", 3,
          [("financial_distress", calculate_financial_distress d),
           ("time_pressure", calculate_time_pressure d),
           ("property_condition", calculate_property_condition y d),
           ("market_position", calculate_market_position d)]⟩) := by
  simp only [calculate_lead_score, agent_weighted_sum_eq, lead_weighted_sum]

/-- The property record exhibiting the C7 boundary failure: component scores
90 / 40 / 100 / 90, weighted sum 79.5. -/
def d79 : PropertyData :=
  { distress_indicators := some ["tax_delinquent", "mortgage_default", "pre_foreclosure"],
    owner_info := some ⟨some 40, some 20⟩,
    property_details := none,
    financial_metrics := some ⟨some 200000⟩,
    market_data := some ⟨some 6⟩,
    days_on_market := none,
    price_drops := none,
    price := some 100000 }

/-- `d79`'s component scores. -/
theorem d79_components :
    calculate_financial_distress d79 = 90 ∧
    calculate_time_pressure d79 = 40 ∧
    calculate_property_condition 2025 d79 = 100 ∧
    calculate_market_position d79 = 90 := by
  refine ⟨?_, ?_, ?_, ?_⟩
  · simp only [calculate_financial_distress, d79]
    simp +decide
    norm_num
  · simp only [calculate_time_pressure, d79]
    simp +decide
  · simp only [calculate_property_condition, d79]
    simp +decide
  · simp only [calculate_market_position, d79]
    simp +decide
    norm_num

/-- `pyRound` at the tie 79.5 rounds up to the even integer 80. -/
theorem pyRound_159_div_2 : pyRound (159 / 2) = 80 := by
  have hfl : ⌊(159 / 2 : ℚ)⌋ = 79 := by
    rw [Int.floor_eq_iff]
    constructor
    · norm_num
    · norm_num
  simp only [pyRound, hfl]
  norm_num

/-- C7 counterexample: for `d79` the weighted sum is 79.5, so the returned
`overall_score` is exactly 80, yet the category is Warm with priority 2 — the
thresholds are applied to the unrounded sum, contradicting the claim that an
overall score of exactly 80 yields Hot with priority 1. -/
theorem C7_counterexample :
    (calculate_lead_score 2025 d79).overall_score = 80 ∧
    (calculate_lead_score 2025 d79).category = "Warm" ∧
    (calculate_lead_score 2025 d79).priority = 2 := by
  obtain ⟨hfd, htp, hpc, hmp⟩ := d79_components
  have hS : lead_weighted_sum 2025 d79 = 159 / 2 := by
    rw [lead_weighted_sum, hfd, htp, hpc, hmp]
    norm_num
  rw [calculate_lead_score_eq, hS]
  have h1 : ¬ ((159 / 2 : ℚ) ≥ 80) := by norm_num
  have h2 : (159 / 2 : ℚ) ≥ 60 := by norm_num
  rw [if_neg h1, if_pos h2]
  exact ⟨pyRound_159_div_2, rfl, rfl⟩

/-- C7 (amended): the reported overall score is the weighted sum of the four
component scores rounded to the nearest integer (ties to even, Python
`round`), but category and priority are decided by closed lower bounds on
the UNROUNDED weighted sum: sum ≥ 80 → Hot/1, 60 ≤ sum < 80 → Warm/2,
sum < 60 → Cold/3; at a boundary the rounded `overall_score` can disagree
with the category (79.5 reports 80 yet is Warm). -/
theorem C7_thresholds_on_unrounded_sum :
    ∀ (y : ℤ) (d : PropertyData),
      (calculate_lead_score y d).overall_score = pyRound (lead_weighted_sum y d) ∧
      (80 ≤ lead_weighted_sum y d →
        (calculate_lead_score y d).category = "Hot" ∧
        (calculate_lead_score y d).priority = 1) ∧
      (60 ≤ lead_weighted_sum y d ∧ lead_weighted_sum y d < 80 →
        (calculate_lead_score y d).category = "Warm" ∧
        (calculate_lead_score y d).priority = 2) ∧
      (lead_weighted_sum y d < 60 →
        (calculate_lead_score y d).category = "Cold" ∧
        (calculate_lead_score y d).priority = 3) := by
  intro y d
  rw [calculate_lead_score_eq]
  by_cases h1 : lead_weighted_sum y d ≥ 80
  · rw [if_pos h1]
    exact ⟨rfl, fun _ => ⟨rfl, rfl⟩,
      fun h => absurd h.2 (not_lt.mpr h1),
      fun h => absurd (lt_of_lt_of_le h (by norm_num)) (not_lt.mpr h1)⟩
  · rw [if_neg h1]
    by_cases h2 : lead_weighted_sum y d ≥ 60
    · rw [if_pos h2]
      exact ⟨rfl, fun h => absurd h h1, fun _ => ⟨rfl, rfl⟩,
        fun h => absurd h (not_lt.mpr h2)⟩
    · rw [if_neg h2]
      exact ⟨rfl, fun h => absurd h h1, fun h => absurd h.1 h2, fun _ => ⟨rfl, rfl⟩⟩

/-- The record used as the C7 witness: every component score is 100, the
weighted sum is 100. -/
def dHot : PropertyData :=
  { distress_indicators := some ["tax_delinquent", "mortgage_default", "pre_foreclosure", "vacant"],
    owner_info := some ⟨some 60, some 20⟩,
    property_details := none,
    financial_metrics := some ⟨some 100⟩,
    market_data := some ⟨some 12⟩,
    days_on_market := some 200,
    price_drops := some 4,
    price := some 60 }

/-- Witness for C7: `dHot` has weighted sum 100 ≥ 80 and is categorized Hot
with priority 1. -/
theorem C7_witness :
    (80 : ℚ) ≤ lead_weighted_sum 2025 dHot ∧
    (calculate_lead_score 2025 dHot).category = "Hot" ∧
    (calculate_lead_score 2025 dHot).priority = 1 := by
  have hS : (80 : ℚ) ≤ lead_weighted_sum 2025 dHot := by
    have hfd : calculate_financial_distress dHot = 100 := by
      simp only [calculate_financial_distress, dHot]
      simp +decide
      norm_num
    have htp : calculate_time_pressure dHot = 100 := by
      simp only [calculate_time_pressure, dHot]
      simp +decide
      norm_num
    have hpc : calculate_property_condition 2025 dHot = 100 := by
      simp only [calculate_property_condition, dHot]
      simp +decide
    have hmp : calculate_market_position dHot = 100 := by
      simp only [calculate_market_position, dHot]
      simp +decide
      norm_num
    rw [lead_weighted_sum, hfd, htp, hpc, hmp]
    norm_num
  exact ⟨hS, (C7_thresholds_on_unrounded_sum 2025 dHot).2.1 hS⟩

/-- C8: lead scoring is total on records with missing fields — every lookup
is a `dict.get` with a default, so `calculate_lead_score` is defined on every
record, and a record with an absent field scores exactly as if the field held
its documented default (empty list for `distress_indicators`, empty dict for
the nested sections, 0 for `days_on_market`, `price_drops` and `price`); in
particular the all-absent record scores as the all-defaults record. -/
theorem C8_missing_field_defaults :
    ∀ (y : ℤ) (d : PropertyData),
      calculate_lead_score y { d with distress_indicators := none } =
        calculate_lead_score y { d with distress_indicators := some [] } ∧
      calculate_lead_score y { d with owner_info := none } =
        calculate_lead_score y { d with owner_info := some ⟨some 0, some 0⟩ } ∧
      calculate_lead_score y { d with property_details := none } =
        calculate_lead_score y { d with property_details := some ⟨none, none⟩ } ∧
      calculate_lead_score y { d with financial_metrics := none } =
        calculate_lead_score y { d with financial_metrics := some ⟨none⟩ } ∧
      calculate_lead_score y { d with market_data := none } =
        calculate_lead_score y { d with market_data := some ⟨some 0⟩ } ∧
      calculate_lead_score y { d with days_on_market := none } =
        calculate_lead_score y { d with days_on_market := some 0 } ∧
      calculate_lead_score y { d with price_drops := none } =
        calculate_lead_score y { d with price_drops := some 0 } ∧
      calculate_lead_score y { d with price := none } =
        calculate_lead_score y { d with price := some 0 } ∧
      calculate_lead_score y emptyRecord =
        calculate_lead_score y
          ⟨some [], some ⟨some 0, some 0⟩, some ⟨some ⟨some [], some [], some []⟩, none⟩,
           some ⟨none⟩, some ⟨some 0⟩, some 0, some 0, some 0⟩ ∧
      (calculate_lead_score y emptyRecord).overall_score = 30 ∧
      (calculate_lead_score y emptyRecord).category = "Cold" ∧
      (calculate_lead_score y emptyRecord).priority = 3 := by
  intro y d
  have hS : lead_weighted_sum y emptyRecord = 30 := by
    have hfd : calculate_financial_distress emptyRecord = 0 := by
      simp only [calculate_financial_distress, emptyRecord]
      simp +decide
    have htp : calculate_time_pressure emptyRecord = 0 := by
      simp only [calculate_time_pressure, emptyRecord]
      simp +decide
    have hpc : calculate_property_condition y emptyRecord = 100 := by
      simp only [calculate_property_condition, emptyRecord]
      simp +decide
    have hmp : calculate_market_position emptyRecord = 50 := by
      simp only [calculate_market_position, emptyRecord]
      simp +decide
    rw [lead_weighted_sum, hfd, htp, hpc, hmp]
    norm_num
  have hfl : ⌊(30 : ℚ)⌋ = 30 := by
    rw [Int.floor_eq_iff]
    constructor
    · norm_num
    · norm_num
  have hround : pyRound 30 = 30 := by
    simp only [pyRound, hfl]
    norm_num
  have hcold : calculate_lead_score y emptyRecord =
      ⟨30, "Cold", 3,
        [("financial_distress", calculate_financial_distress emptyRecord),
         ("time_pressure", calculate_time_pressure emptyRecord),
         ("property_condition", calculate_property_condition y emptyRecord),
         ("market_position", calculate_market_position emptyRecord)]⟩ := by
    rw [calculate_lead_score_eq, hS]
    rw [if_neg (by norm_num), if_neg (by norm_num), hround]
  exact ⟨rfl, rfl, rfl, rfl, rfl, rfl, rfl, rfl, rfl,
    by rw [hcold], by rw [hcold], by rw [hcold]⟩
